import Mathlib

/-!
# Verification of `update-join/data.py` (`record_sale`)

Shallow embedding of the repository's single source file, `data.py`.
The relational store is modelled as lists of rows; SQL statements that
`record_sale` executes are modelled as functions on the store.  The
transaction scope that wraps the body (commit on normal exit, rollback on
propagated failure) is the external storage gateway's behaviour, modelled
from the spec.
-/

namespace UpdateJoin

/-- A row of the `customers` table: surrogate `id` and unique `name`. -/
structure Customer where
  id : Nat
  name : String
  deriving DecidableEq, Repr

/-- A row of the `invoices` table: surrogate `id` (assigned by the store on
insert) and `customer_id` foreign key. -/
structure Invoice where
  id : Nat
  customer_id : Nat
  deriving DecidableEq, Repr

/-- The backing store: the three tables of the schema, in insertion order,
plus the store's next surrogate invoice id.  An `items` row is a pair
`(name, invoice_id)`. -/
structure Store where
  customers : List Customer
  invoices : List Invoice
  items : List (String × Nat)
  nextInvoiceId : Nat
  deriving DecidableEq, Repr

/-- Errors a `record_sale` call can surface.  `fetchNoneIndex` is the generic
runtime error raised by `cur.fetchone()[0]` when `fetchone()` returned no row
(Python `TypeError` from subscripting `None`); `queryError` is a store-level
failure (e.g. constraint violation) of an item insert; `notFound` is the
spec's domain error taxonomy (`NotFoundError("customer")`) — the code never
produces it, it is declared so that statements about it can be made. -/
inductive DbError where
  | fetchNoneIndex
  | queryError
  | notFound (what : String)
  deriving DecidableEq, Repr

/-- The statement
`INSERT INTO invoices (customer_id) SELECT id FROM customers WHERE name = %s
RETURNING id AS invoice_id`: one invoice row is inserted per customer row
matching the name, each receiving the next surrogate id; the returned rows
are the new invoice ids, in order. -/
def insertInvoiceSelect (s : Store) (customer : String) : Store × List Nat :=
  let matched := s.customers.filter (fun k => k.name == customer)
  let ids := (List.range matched.length).map (fun i => s.nextInvoiceId + i)
  let newRows := (matched.zip ids).map (fun p => Invoice.mk p.2 p.1.id)
  ({ s with invoices := s.invoices ++ newRows,
            nextInvoiceId := s.nextInvoiceId + matched.length }, ids)

/-- The loop `for item in items: cur.execute("INSERT INTO items ...", (item,
invoice_id))`.  `ok it inv` models whether the store accepts the insert of
item `it` for invoice `inv` (a constraint check); on the first rejected
insert the loop aborts with `queryError`.  The second component is the trace
of items whose insert statement was actually executed, in execution order. -/
def insertItems (ok : String → Nat → Bool) (invoice_id : Nat) :
    List String → Store → Except DbError Store × List String
  | [], s => (Except.ok s, [])
  | it :: rest, s =>
      if ok it invoice_id then
        let r := insertItems ok invoice_id rest
          { s with items := s.items ++ [(it, invoice_id)] }
        (r.1, it :: r.2)
      else
        (Except.error DbError.queryError, [it])

/-- The body of `record_sale` (the statements executed inside the cursor
scope): run the insert-select, recover the invoice id with
`cur.fetchone()[0]` (raising the generic error when no row came back), then
insert the items.  Returns the outcome together with the item-insert trace. -/
def record_sale_run (ok : String → Nat → Bool) (s : Store) (customer : String)
    (items : List String) : Except DbError (Store × Nat) × List String :=
  let r1 := insertInvoiceSelect s customer
  match r1.2.head? with
  | none => (Except.error DbError.fetchNoneIndex, [])
  | some invoice_id =>
      let r2 := insertItems ok invoice_id items r1.1
      (r2.1.map (fun s2 => (s2, invoice_id)), r2.2)

/-- Modelled from the spec: the scoped release semantics of the storage
gateway's transaction handle, which is library code absent from the source —
"the transaction handle, when its scope ends normally, issues a commit; when
its scope ends due to any propagated failure, issues a rollback".
`record_sale` runs the body inside that scope: on success the new state is
committed; on any propagated failure the store reverts to its pre-call state
and the error is surfaced.  The `Nat` in the success case is the invoice id
the body computed into its local `invoice_id` — NOT the Python function's
return value: `data.py`'s `record_sale` has no `return` statement and hands
`None` back to its caller (see `record_sale_py_result`). -/
def record_sale (ok : String → Nat → Bool) (s : Store) (customer : String)
    (items : List String) : Except DbError Nat × Store :=
  match (record_sale_run ok s customer items).1 with
  | Except.ok r => (Except.ok r.2, r.1)
  | Except.error e => (Except.error e, s)

/-- The item-insert statements executed by a `record_sale` call, in order. -/
def itemInsertTrace (ok : String → Nat → Bool) (s : Store) (customer : String)
    (items : List String) : List String :=
  (record_sale_run ok s customer items).2

/-- Terminal state of one invocation's transaction. -/
inductive TxOutcome where
  | committed
  | rolledBack
  deriving DecidableEq, Repr

/-- Modelled from the spec: which terminal state the transaction scope of a
`record_sale` invocation reaches — `committed` on normal exit, `rolledBack`
on propagated failure. -/
def txOutcome (ok : String → Nat → Bool) (s : Store) (customer : String)
    (items : List String) : TxOutcome :=
  match (record_sale_run ok s customer items).1 with
  | Except.ok _ => TxOutcome.committed
  | Except.error _ => TxOutcome.rolledBack

/-- A store-acceptance oracle that accepts every item insert. -/
def okAll : String → Nat → Bool := fun _ _ => true

/-- Concrete store for witnesses: one customer "Mary" with id 7, no invoices,
no items (spec §8's example store). -/
def store0 : Store :=
  { customers := [Customer.mk 7 "Mary"], invoices := [], items := [],
    nextInvoiceId := 1 }

/-! ## Helper lemmas about the item-insert loop -/

theorem insertItems_all_ok (ok : String → Nat → Bool) (inv : Nat)
    (its : List String) (s : Store) (h : ∀ it ∈ its, ok it inv = true) :
    insertItems ok inv its s =
      (Except.ok { s with items := s.items ++ its.map (fun it => (it, inv)) },
        its) := by
  induction its generalizing s with
  | nil => simp [insertItems]
  | cons it rest ih =>
    have hit : ok it inv = true := h it (by simp)
    rw [insertItems, if_pos hit,
      ih _ (fun x hx => h x (List.mem_cons_of_mem _ hx))]
    simp

theorem insertItems_first_failure (ok : String → Nat → Bool) (inv : Nat)
    (pre : List String) (bad : String) (rest : List String) (s : Store)
    (hpre : ∀ it ∈ pre, ok it inv = true) (hbad : ok bad inv = false) :
    insertItems ok inv (pre ++ bad :: rest) s =
      (Except.error DbError.queryError, pre ++ [bad]) := by
  induction pre generalizing s with
  | nil => simp [insertItems, hbad]
  | cons it p ih =>
    have hit : ok it inv = true := hpre it (by simp)
    rw [List.cons_append, insertItems, if_pos hit,
      ih _ (fun x hx => hpre x (List.mem_cons_of_mem _ hx))]
    simp

/-! ## Behaviour of the insert-select statement -/

theorem insertInvoiceSelect_single (s : Store) (c : String) (cust : Customer)
    (hone : s.customers.filter (fun k => k.name == c) = [cust]) :
    insertInvoiceSelect s c =
      ({ s with invoices := s.invoices ++ [Invoice.mk s.nextInvoiceId cust.id],
                nextInvoiceId := s.nextInvoiceId + 1 }, [s.nextInvoiceId]) := by
  simp [insertInvoiceSelect, hone, List.range_succ]

theorem insertInvoiceSelect_no_match (s : Store) (c : String)
    (h : s.customers.filter (fun k => k.name == c) = []) :
    insertInvoiceSelect s c = (s, []) := by
  simp [insertInvoiceSelect, h]

/-- Shared helper: full description of a `record_sale` call when the
identifier matches exactly one Customer row and the store accepts every item
insert. -/
theorem record_sale_single_match (ok : String → Nat → Bool)
    (s : Store) (c : String) (items : List String) (cust : Customer)
    (hone : s.customers.filter (fun k => k.name == c) = [cust])
    (hok : ∀ it ∈ items, ok it s.nextInvoiceId = true) :
    record_sale ok s c items =
      (Except.ok s.nextInvoiceId,
       { s with invoices := s.invoices ++ [Invoice.mk s.nextInvoiceId cust.id],
                items := s.items ++ items.map (fun it => (it, s.nextInvoiceId)),
                nextInvoiceId := s.nextInvoiceId + 1 }) := by
  have h2 := insertItems_all_ok ok s.nextInvoiceId items
    { s with invoices := s.invoices ++ [Invoice.mk s.nextInvoiceId cust.id],
             nextInvoiceId := s.nextInvoiceId + 1 } hok
  simp only at h2
  simp [record_sale, record_sale_run, insertInvoiceSelect_single s c cust hone,
    h2, Except.map]

/-- C1: for a customer identifier matching exactly one Customer row and any
ordered item sequence, when the store accepts every item insert the call
succeeds, inserting exactly one Invoice row referencing that customer's id
and exactly `len(items)` Item rows referencing the new Invoice's id, in the
caller-supplied order. -/
theorem record_sale_creates_invoice_and_items (ok : String → Nat → Bool)
    (s : Store) (c : String) (items : List String) (cust : Customer)
    (hone : s.customers.filter (fun k => k.name == c) = [cust])
    (hok : ∀ it ∈ items, ok it s.nextInvoiceId = true) :
    (record_sale ok s c items).1 = Except.ok s.nextInvoiceId ∧
    (record_sale ok s c items).2.invoices =
      s.invoices ++ [Invoice.mk s.nextInvoiceId cust.id] ∧
    (record_sale ok s c items).2.items =
      s.items ++ items.map (fun it => (it, s.nextInvoiceId)) := by
  rw [record_sale_single_match ok s c items cust hone hok]
  exact ⟨rfl, rfl, rfl⟩

/-- Witness for C1 at the spec's example input. -/
theorem record_sale_creates_invoice_and_items_witness :
    (record_sale okAll store0 "Mary"
        ["Purple Automobile", "Yellow Automobile"]).1 = Except.ok 1 ∧
    (record_sale okAll store0 "Mary"
        ["Purple Automobile", "Yellow Automobile"]).2.invoices =
      store0.invoices ++ [Invoice.mk 1 7] ∧
    (record_sale okAll store0 "Mary"
        ["Purple Automobile", "Yellow Automobile"]).2.items =
      store0.items ++ [("Purple Automobile", 1), ("Yellow Automobile", 1)] :=
  record_sale_creates_invoice_and_items okAll store0 "Mary"
    ["Purple Automobile", "Yellow Automobile"] (Customer.mk 7 "Mary")
    (by decide) (by intro it h; rfl)

/-- C2: whenever a `record_sale` call fails (surfaces any error), the store
after the call is exactly the store before the call — full rollback, no
partial Invoice or Item subset survives. -/
theorem record_sale_failure_rolls_back (ok : String → Nat → Bool) (s : Store)
    (c : String) (items : List String) (e : DbError)
    (h : (record_sale ok s c items).1 = Except.error e) :
    (record_sale ok s c items).2 = s := by
  unfold record_sale at h ⊢
  cases hr : (record_sale_run ok s c items).1 with
  | ok r => rw [hr] at h; exact absurd h (by simp)
  | error e2 => rfl

/-- Witness for C2: a failing call (no customer "Bob") leaves the store as it
was. -/
theorem record_sale_failure_rolls_back_witness :
    (record_sale okAll store0 "Bob" ["Purple Automobile"]).2 = store0 :=
  record_sale_failure_rolls_back okAll store0 "Bob" ["Purple Automobile"]
    DbError.fetchNoneIndex rfl

/-- C5: every invocation ends in exactly one of the two terminal states:
`committed` (normal scope exit, an invoice id is returned) or `rolledBack`
(a failure propagated, an error is returned and the store reverts to its
pre-call state); there is no third exit path. -/
theorem record_sale_commits_or_rolls_back (ok : String → Nat → Bool)
    (s : Store) (c : String) (items : List String) :
    (txOutcome ok s c items = TxOutcome.committed ∧
      ∃ i, (record_sale ok s c items).1 = Except.ok i) ∨
    (txOutcome ok s c items = TxOutcome.rolledBack ∧
      (∃ e, (record_sale ok s c items).1 = Except.error e) ∧
      (record_sale ok s c items).2 = s) := by
  cases hr : (record_sale_run ok s c items).1 with
  | ok r =>
    exact Or.inl ⟨by simp [txOutcome, hr], r.2, by simp [record_sale, hr]⟩
  | error e =>
    exact Or.inr ⟨by simp [txOutcome, hr], ⟨e, by simp [record_sale, hr]⟩,
      by simp [record_sale, hr]⟩

/-- C3 counterexample: against a store whose only customer is "Mary", a call
for "Bob" fails — but with the generic fetch error, not with
`NotFoundError("customer")` as the claim states. -/
theorem record_sale_notFound_counterexample :
    (record_sale okAll store0 "Bob" ["Purple Automobile"]).1 =
      Except.error DbError.fetchNoneIndex ∧
    (record_sale okAll store0 "Bob" ["Purple Automobile"]).1 ≠
      Except.error (DbError.notFound "customer") := by
  refine ⟨rfl, ?_⟩
  rw [show (record_sale okAll store0 "Bob" ["Purple Automobile"]).1 =
      Except.error DbError.fetchNoneIndex from rfl]
  simp

/-- C3 (amended): for every customer identifier with no matching Customer
row, `record_sale` inserts no Invoice and fails — with the generic runtime
error from indexing the absent fetched row, not `NotFoundError("customer")` —
after which the transaction rolls back and the store is unchanged. -/
theorem record_sale_no_match_fails_unchanged (ok : String → Nat → Bool)
    (s : Store) (c : String) (items : List String)
    (h : s.customers.filter (fun k => k.name == c) = []) :
    (record_sale ok s c items).1 = Except.error DbError.fetchNoneIndex ∧
    (record_sale ok s c items).2 = s := by
  simp [record_sale, record_sale_run, insertInvoiceSelect_no_match s c h]

/-- Witness for the amended C3. -/
theorem record_sale_no_match_fails_unchanged_witness :
    (record_sale okAll store0 "Bob" ["Purple Automobile"]).1 =
      Except.error DbError.fetchNoneIndex ∧
    (record_sale okAll store0 "Bob" ["Purple Automobile"]).2 = store0 :=
  record_sale_no_match_fails_unchanged okAll store0 "Bob" ["Purple Automobile"]
    (by decide)

/-- C8: with a valid (uniquely matching) customer identifier, an empty item
sequence is not rejected: the call succeeds, producing exactly one Invoice
and zero Item rows. -/
theorem record_sale_empty_items_ok (ok : String → Nat → Bool) (s : Store)
    (c : String) (cust : Customer)
    (hone : s.customers.filter (fun k => k.name == c) = [cust]) :
    (record_sale ok s c []).1 = Except.ok s.nextInvoiceId ∧
    (record_sale ok s c []).2.invoices =
      s.invoices ++ [Invoice.mk s.nextInvoiceId cust.id] ∧
    (record_sale ok s c []).2.items = s.items := by
  rw [record_sale_single_match ok s c [] cust hone (by intro it h; cases h)]
  simp

/-- Witness for C8. -/
theorem record_sale_empty_items_ok_witness :
    (record_sale okAll store0 "Mary" []).1 = Except.ok 1 ∧
    (record_sale okAll store0 "Mary" []).2.invoices =
      store0.invoices ++ [Invoice.mk 1 7] ∧
    (record_sale okAll store0 "Mary" []).2.items = store0.items :=
  record_sale_empty_items_ok okAll store0 "Mary" (Customer.mk 7 "Mary")
    (by decide)

/-- C9: when the customer lookup returns no row, the unguarded
`cur.fetchone()[0]` raises the generic runtime error — a `fetchNoneIndex`,
never the domain error `NotFoundError` — and it does so before any item
insert statement is executed (the item-insert trace is empty). -/
theorem record_sale_no_row_generic_error (ok : String → Nat → Bool)
    (s : Store) (c : String) (items : List String)
    (h : s.customers.filter (fun k => k.name == c) = []) :
    (record_sale ok s c items).1 = Except.error DbError.fetchNoneIndex ∧
    (∀ w, (record_sale ok s c items).1 ≠ Except.error (DbError.notFound w)) ∧
    itemInsertTrace ok s c items = [] := by
  simp [record_sale, record_sale_run, itemInsertTrace,
    insertInvoiceSelect_no_match s c h]

/-- Witness for C9. -/
theorem record_sale_no_row_generic_error_witness :
    (record_sale okAll store0 "Bob" ["Purple Automobile"]).1 =
      Except.error DbError.fetchNoneIndex ∧
    (∀ w, (record_sale okAll store0 "Bob" ["Purple Automobile"]).1 ≠
      Except.error (DbError.notFound w)) ∧
    itemInsertTrace okAll store0 "Bob" ["Purple Automobile"] = [] :=
  record_sale_no_row_generic_error okAll store0 "Bob" ["Purple Automobile"]
    (by decide)

/-- C10: `record_sale` validates nothing: two identifiers with no matching
Customer row — the empty string among them — produce byte-for-byte the same
outcome and store; the empty string is simply forwarded to the store. -/
theorem record_sale_no_validation (ok : String → Nat → Bool) (s : Store)
    (items : List String) (c1 c2 : String)
    (h1 : s.customers.filter (fun k => k.name == c1) = [])
    (h2 : s.customers.filter (fun k => k.name == c2) = []) :
    record_sale ok s c1 items = record_sale ok s c2 items := by
  simp [record_sale, record_sale_run, insertInvoiceSelect_no_match s c1 h1,
    insertInvoiceSelect_no_match s c2 h2]

/-- Witness for C10: the empty-string identifier behaves exactly like any
other non-matching identifier. -/
theorem record_sale_no_validation_witness :
    record_sale okAll store0 "" ["Purple Automobile"] =
      record_sale okAll store0 "Bob" ["Purple Automobile"] :=
  record_sale_no_validation okAll store0 ["Purple Automobile"] "" "Bob"
    (by decide) (by decide)

/-- A store-acceptance oracle that rejects exactly the item named "Bad". -/
def okNotBad : String → Nat → Bool := fun it _ => !(it == "Bad")

/-- C6: if the store rejects the insert of the Nth item (all earlier ones
having been accepted), the loop aborts at once: the executed item-insert
statements are exactly the first N — none of the later items is ever
attempted — the call fails with the store-level error, and the transaction
rolls back. -/
theorem record_sale_aborts_on_item_failure (ok : String → Nat → Bool)
    (s : Store) (c : String) (cust : Customer) (pre : List String)
    (bad : String) (rest : List String)
    (hone : s.customers.filter (fun k => k.name == c) = [cust])
    (hpre : ∀ it ∈ pre, ok it s.nextInvoiceId = true)
    (hbad : ok bad s.nextInvoiceId = false) :
    (record_sale ok s c (pre ++ bad :: rest)).1 =
      Except.error DbError.queryError ∧
    itemInsertTrace ok s c (pre ++ bad :: rest) = pre ++ [bad] ∧
    (record_sale ok s c (pre ++ bad :: rest)).2 = s := by
  have h2 := insertItems_first_failure ok s.nextInvoiceId pre bad rest
    { s with invoices := s.invoices ++ [Invoice.mk s.nextInvoiceId cust.id],
             nextInvoiceId := s.nextInvoiceId + 1 } hpre hbad
  simp [record_sale, itemInsertTrace, record_sale_run,
    insertInvoiceSelect_single s c cust hone, h2, Except.map]

/-- Witness for C6: the second of three items is rejected; only the first two
insert statements run, and the store is untouched. -/
theorem record_sale_aborts_on_item_failure_witness :
    (record_sale okNotBad store0 "Mary" ["Good", "Bad", "Never"]).1 =
      Except.error DbError.queryError ∧
    itemInsertTrace okNotBad store0 "Mary" ["Good", "Bad", "Never"] =
      ["Good", "Bad"] ∧
    (record_sale okNotBad store0 "Mary" ["Good", "Bad", "Never"]).2 =
      store0 :=
  record_sale_aborts_on_item_failure okNotBad store0 "Mary"
    (Customer.mk 7 "Mary") ["Good"] "Bad" ["Never"] (by decide) (by decide)
    (by decide)

/-- C7: `record_sale` is not idempotent: two consecutive calls with identical
arguments (valid identifier, all inserts accepted) both succeed, return two
distinct Invoice ids, and each leaves its own copy of the Item rows. -/
theorem record_sale_not_idempotent (ok : String → Nat → Bool) (s : Store)
    (c : String) (items : List String) (cust : Customer)
    (hone : s.customers.filter (fun k => k.name == c) = [cust])
    (hok : ∀ it n, ok it n = true) :
    ∃ i1 i2 : Nat,
      (record_sale ok s c items).1 = Except.ok i1 ∧
      (record_sale ok (record_sale ok s c items).2 c items).1 =
        Except.ok i2 ∧
      i1 ≠ i2 ∧
      (record_sale ok (record_sale ok s c items).2 c items).2.items =
        s.items ++ items.map (fun it => (it, i1))
          ++ items.map (fun it => (it, i2)) := by
  have h1 := record_sale_single_match ok s c items cust hone
    (fun it _ => hok it s.nextInvoiceId)
  have hone1 : ({ s with
      invoices := s.invoices ++ [Invoice.mk s.nextInvoiceId cust.id],
      items := s.items ++ items.map (fun it => (it, s.nextInvoiceId)),
      nextInvoiceId := s.nextInvoiceId + 1 } : Store).customers.filter
        (fun k => k.name == c) = [cust] := hone
  have h2 := record_sale_single_match ok _ c items cust hone1
    (fun it _ => hok it _)
  refine ⟨s.nextInvoiceId, s.nextInvoiceId + 1, by simp [h1], ?_, by omega,
    ?_⟩
  · rw [h1]
    dsimp only
    rw [h2]
  · rw [h1]
    dsimp only
    rw [h2]

/-- Witness for C7 at the spec's example input. -/
theorem record_sale_not_idempotent_witness :
    ∃ i1 i2 : Nat,
      (record_sale okAll store0 "Mary" ["Purple Automobile"]).1 =
        Except.ok i1 ∧
      (record_sale okAll
          (record_sale okAll store0 "Mary" ["Purple Automobile"]).2
          "Mary" ["Purple Automobile"]).1 = Except.ok i2 ∧
      i1 ≠ i2 ∧
      (record_sale okAll
          (record_sale okAll store0 "Mary" ["Purple Automobile"]).2
          "Mary" ["Purple Automobile"]).2.items =
        store0.items ++ [("Purple Automobile", i1)]
          ++ [("Purple Automobile", i2)] :=
  record_sale_not_idempotent okAll store0 "Mary" ["Purple Automobile"]
    (Customer.mk 7 "Mary") (by decide) (fun it n => rfl)

/-- What the Python `record_sale` actually hands back to its caller on a
normal (committing) exit: the function body in `data.py` ends after the item
loop with no `return` statement, so the locally computed `invoice_id` is
discarded and every successful invocation returns `None` (`none` here); on a
propagated failure the error is surfaced instead. -/
def record_sale_py_result (ok : String → Nat → Bool) (s : Store)
    (c : String) (items : List String) : Except DbError (Option Nat) :=
  match (record_sale_run ok s c items).1 with
  | Except.ok _ => Except.ok none
  | Except.error e => Except.error e

/-- C4: the claim (and spec §4.2 step 4) says a successful invocation returns
the newly assigned Invoice id, but the source function has no `return`
statement. At the spec's example input the invocation succeeds — the new
Invoice (id 1, customer 7) is durably created — yet the caller receives
Python `None`, not the id. -/
theorem record_sale_py_result_is_none :
    record_sale_py_result okAll store0 "Mary"
        ["Purple Automobile", "Yellow Automobile"] = Except.ok none ∧
    (record_sale okAll store0 "Mary"
        ["Purple Automobile", "Yellow Automobile"]).2.invoices =
      store0.invoices ++ [Invoice.mk 1 7] :=
  ⟨rfl, rfl⟩

end UpdateJoin
